import Mathlib

/-!
Shallow embedding of the account-lifecycle controller of the casdoor
repository (`controllers/account.go`): the `Signup` orchestration, `Logout`,
`GetUserinfo` and `GetHumanCheck` entry points, together with the decimal
identifier formatting/parsing used by the incremental ID rule.

External collaborators (`object.*`, `util.*` and the session layer) are
modelled as explicit environment records; the served HTTP responses and the
side effects of `Signup` (created user, replication, session change,
verification-code invalidation, audit) are returned as explicit data.
-/

namespace Casdoor

/-! ### Decimal formatting and parsing

`strconv.Itoa` and `util.ParseInt` are outside the source slice; both are
modelled from the spec ("new id = that value + 1, formatted as a decimal
string", "parse its identifier as an integer") as exact decimal
formatting/parsing over unbounded integers. -/

/-- Character for the decimal digit `n` (`0 ≤ n < 10`). -/
def digitCharOf (n : Nat) : Char := Char.ofNat (48 + n)

/-- Emits the decimal digits of `n` (most significant first) in front of `ds`,
with explicit fuel so that evaluation is structural. -/
def natDigitsAux : Nat → Nat → List Char → List Char
  | 0, _, ds => ds
  | fuel + 1, n, ds =>
    if n < 10 then digitCharOf n :: ds
    else natDigitsAux fuel (n / 10) (digitCharOf (n % 10) :: ds)

/-- Decimal digit string of a natural number. -/
def natDigits (n : Nat) : List Char := natDigitsAux (n + 1) n []

/-- Modelled from the spec: `strconv.Itoa`, decimal formatting of an integer. -/
def Itoa (i : Int) : String :=
  if i < 0 then ⟨'-' :: natDigits i.natAbs⟩ else ⟨natDigits i.toNat⟩

/-- Reads a block of decimal digit characters back as a natural number. -/
def parseNatDigits (cs : List Char) : Nat :=
  cs.foldl (fun a c => a * 10 + (c.toNat - 48)) 0

/-- Recognizes the characters `'0'`–`'9'`. -/
def isDigitChar (c : Char) : Bool := 48 ≤ c.toNat && c.toNat ≤ 57

/-- Modelled from the spec: `util.ParseInt` ("parse its identifier as an
integer"); `none` models the panic `util.ParseInt` raises on malformed
input. -/
def ParseInt (s : String) : Option Int :=
  match s.toList with
  | [] => none
  | c :: cs =>
    if c = '-' then
      if cs ≠ [] ∧ cs.all isDigitChar then some (-(parseNatDigits cs : Int))
      else none
    else
      if (c :: cs).all isDigitChar then some (parseNatDigits (c :: cs))
      else none

/-! ### Data model

Structures mirror the Go structs read by `controllers/account.go`. The
`Application`/`Organization`/`User` types live in the `object` package, which
is outside the source slice; their fields and methods used here are modelled
from the spec (policy fields of §3, methods of §4). -/

/-- Modelled from the spec: one signup item of an application's signup
configuration (field name, visibility flag, per-item rule). -/
structure SignupItem where
  Name : String
  Visible : Bool
  Rule : String
deriving Repr, DecidableEq

/-- Modelled from the spec: the per-application signup policy read by the
orchestration (`object.Application`). -/
structure Application where
  Name : String
  Organization : String
  EnableSignUp : Bool
  HomepageUrl : String
  SignupItems : List SignupItem
  HasPromptPage : Bool
deriving Repr, DecidableEq

/-- Modelled from the spec: organization-scoped defaults read by the
orchestration (`object.Organization`). -/
structure Organization where
  DefaultAvatar : String
  Tags : List String
deriving Repr, DecidableEq

/-- Modelled from the spec: whether a signup item with the given name is
visible for the application (`application.IsSignupItemVisible`). -/
def Application.IsSignupItemVisible (app : Application) (itemName : String) : Bool :=
  app.SignupItems.any (fun si => si.Name = itemName && si.Visible)

/-- Modelled from the spec: the configured rule of the named signup item,
`""` when the item is absent (`application.GetSignupItemRule`). -/
def Application.GetSignupItemRule (app : Application) (itemName : String) : String :=
  match app.SignupItems.find? (fun si => si.Name = itemName) with
  | none => ""
  | some si => si.Rule

/-- The caller-submitted signup form (`RequestForm` in the source). Only the
fields the modelled entry points read are kept. -/
structure RequestForm where
  Organization : String
  Username : String
  Password : String
  Name : String
  FirstName : String
  LastName : String
  Email : String
  Phone : String
  Affiliation : String
  IdCard : String
  Region : String
  Application : String
  EmailCode : String
  PhoneCode : String
  PhonePrefix : String
deriving Repr, DecidableEq

/-- The durable user entity constructed by `Signup` (`object.User`). The Go
field `Type` is spelled `UserType` (`Type` is reserved in Lean); `Properties`
is an association list standing for the Go string map. -/
structure User where
  Owner : String
  Name : String
  CreatedTime : String
  Id : String
  UserType : String
  Password : String
  DisplayName : String
  FirstName : String
  LastName : String
  Avatar : String
  Email : String
  Phone : String
  Address : List String
  Affiliation : String
  IdCard : String
  Region : String
  Score : Int
  IsAdmin : Bool
  IsGlobalAdmin : Bool
  IsForbidden : Bool
  IsDeleted : Bool
  SignupApplication : String
  Properties : List (String × String)
  Karma : Int
  Tag : String
deriving Repr, DecidableEq

/-- Modelled from the spec: the composite identifier `"<owner>/<name>"`
(`user.GetId`). -/
def User.GetId (u : User) : String := u.Owner ++ "/" ++ u.Name

/-! ### Signup orchestration -/

/-- Outcome of one `Signup` call: the served response, or the nil-dereference
panic the Go code raises when it dereferences an absent collaborator result. -/
inductive SignupResult where
  | ok (userId : String)
  | err (msg : String) (data : Option String)
  | nilPanic
deriving Repr, DecidableEq

/-- Observable side effects of one `Signup` call: the persisted user record,
the best-effort replica, the session username (set only for prompt-page
applications), the verification-code invalidation calls in order, and the
audit-record emission. -/
structure SignupEffects where
  createdUser : Option User
  replicatedUser : Option User
  sessionSet : Option String
  invalidatedTargets : List String
  auditEmitted : Bool
deriving Repr, DecidableEq

/-- Effects of a call that aborts before persistence: nothing happened. -/
def noEffects : SignupEffects :=
  { createdUser := none, replicatedUser := none, sessionSet := none,
    invalidatedTargets := [], auditEmitted := false }

/-- Environment of collaborators consulted by `Signup`: session state, the
policy stores, the external field validator, the verification ledger's check,
the per-organization last user, the random id generator, the user store's
create-if-absent, JSON serialization, current time and initial score. -/
structure Env where
  sessionUsername : String
  getApplication : String → Option Application
  getOrganization : String → Option Organization
  validateFields : Application → RequestForm → String
  checkVerificationCode : String → String → String
  getLastUser : String → Option User
  generatedId : String
  addUserSucceeds : User → Bool
  structToJson : User → String
  currentTime : String
  initScore : Int

/-- Modelled from the spec: `object.CheckUserSignup` — resolving an absent
organization fails with an organization-not-found message (spec §4.1 step 3),
otherwise the business-rule validation over the submitted fields is delegated
to the external validator (spec §4.1 step 4). -/
def CheckUserSignup (env : Env) (app : Application) (organization : Option Organization)
    (form : RequestForm) : String :=
  match organization with
  | none => "organization does not exist"
  | some _ => env.validateFields app form

/-- The phone verification target: `"+<prefix><phone>"` when the phone check
runs, `""` otherwise (the Go `checkPhone` variable). -/
def checkPhoneOf (form : RequestForm) (app : Application) : String :=
  if app.IsSignupItemVisible "Phone" ∧ form.Phone ≠ "" then
    "+" ++ RequestForm.PhonePrefix form ++ form.Phone
  else ""

/-- The allocated identifier: under the `Incremental` rule, one more than the
organization's last user's parsed id (absence read as `-1`), rendered in
decimal; otherwise the generated random id. `none` models the `util.ParseInt`
panic on a malformed stored id. -/
def allocId (env : Env) (form : RequestForm) (app : Application) : Option String :=
  if app.GetSignupItemRule "ID" = "Incremental" then
    match env.getLastUser form.Organization with
    | none => some (Itoa (-1 + 1))
    | some lastUser => (ParseInt lastUser.Id).map (fun k => Itoa (k + 1))
  else some env.generatedId

/-- The user record `Signup` constructs: base fields from the form and the
policies, then the organization's first tag-group token, then the
`"First, last"` display-name rule. -/
def mkUser (env : Env) (form : RequestForm) (app : Application) (org : Organization)
    (id : String) : User :=
  let username := if ¬ app.IsSignupItemVisible "Username" then id else form.Username
  let base : User :=
    { Owner := form.Organization, Name := username, CreatedTime := env.currentTime,
      Id := id, UserType := "normal-user", Password := form.Password,
      DisplayName := form.Name, FirstName := "", LastName := "",
      Avatar := org.DefaultAvatar, Email := form.Email, Phone := form.Phone,
      Address := [], Affiliation := form.Affiliation, IdCard := form.IdCard,
      Region := form.Region, Score := env.initScore, IsAdmin := false,
      IsGlobalAdmin := false, IsForbidden := false, IsDeleted := false,
      SignupApplication := app.Name, Properties := [], Karma := 0, Tag := "" }
  let withTag :=
    match org.Tags with
    | [] => base
    | t :: _ =>
      match t.splitOn "|" with
      | [] => base
      | tok :: _ => { base with Tag := tok }
  if app.GetSignupItemRule "Display name" = "First, last" ∧
      (form.FirstName ≠ "" ∨ form.LastName ≠ "") then
    { withTag with DisplayName := form.FirstName ++ " " ++ form.LastName,
                   FirstName := form.FirstName, LastName := form.LastName }
  else withTag

/-- Identifier allocation, user construction and persistence (source lines
137–219): panics on a malformed last id or a nil organization, fails with the
diagnostic message when the store reports a duplicate, and otherwise reports
the full set of post-persistence side effects. -/
def signupCreate (env : Env) (form : RequestForm) (app : Application)
    (organization : Option Organization) : SignupResult × SignupEffects :=
  match allocId env form app with
  | none => (.nilPanic, noEffects)
  | some id =>
    match organization with
    | none => (.nilPanic, noEffects)
    | some org =>
      let user := mkUser env form app org id
      if env.addUserSucceeds user = false then
        (.err ("Failed to create user, user information is invalid: " ++ env.structToJson user)
          none, noEffects)
      else
        (.ok (user.Owner ++ "/" ++ user.Name),
         { createdUser := some user,
           replicatedUser := some user,
           sessionSet := if app.HasPromptPage then some (User.GetId user) else none,
           invalidatedTargets := [form.Email, checkPhoneOf form app],
           auditEmitted := true })

/-- The phone verification-code check (source lines 127–135) and everything
after it. -/
def signupPhone (env : Env) (form : RequestForm) (app : Application)
    (organization : Option Organization) : SignupResult × SignupEffects :=
  if app.IsSignupItemVisible "Phone" ∧ form.Phone ≠ "" then
    let r := env.checkVerificationCode (checkPhoneOf form app) form.PhoneCode
    if r.length ≠ 0 then (.err ("Phone: " ++ r) none, noEffects)
    else signupCreate env form app organization
  else signupCreate env form app organization

/-- The `Signup` entry point (source lines 94–219): the ordered pre-persistence
checks, then identifier allocation, user construction, persistence and the
post-persistence side effects. -/
def Signup (env : Env) (form : RequestForm) : SignupResult × SignupEffects :=
  if env.sessionUsername ≠ "" then
    (.err "Please sign out first before signing up" (some env.sessionUsername), noEffects)
  else
    match env.getApplication ("admin/" ++ form.Application) with
    | none => (.nilPanic, noEffects)
    | some app =>
      if app.EnableSignUp = false then
        (.err "The application does not allow to sign up new account" none, noEffects)
      else
        let organization := env.getOrganization ("admin/" ++ form.Organization)
        let msg := CheckUserSignup env app organization form
        if msg ≠ "" then (.err msg none, noEffects)
        else
          if app.IsSignupItemVisible "Email" ∧ form.Email ≠ "" then
            let r := env.checkVerificationCode form.Email form.EmailCode
            if r.length ≠ 0 then (.err ("Email: " ++ r) none, noEffects)
            else signupPhone env form app organization
          else signupPhone env form app organization

/-! ### Session state and Logout -/

/-- Modelled from the spec: the session-scoped data beyond the username —
the application context and the OIDC scope/audience pair (§2 SessionManager,
§3 SessionState). -/
structure SessionData where
  application : Option Application
  oidcScope : String
  oidcAud : String
deriving Repr, DecidableEq

/-- Per-caller session state: the signed-in username and the session data
blob cleared by `SetSessionData(nil)`. -/
structure SessionState where
  username : String
  data : Option SessionData
deriving Repr, DecidableEq

/-- The session's application context (`c.GetSessionApplication`). -/
def GetSessionApplication (s : SessionState) : Option Application :=
  match s.data with
  | none => none
  | some d => d.application

/-- The `Logout` entry point (source lines 227–240): reads the active
username and application, clears the username and all session data, and
returns the pre-clear username together with the redirect target (`""` when
`ResponseOk` was called with the username alone). -/
def Logout (s : SessionState) : SessionState × String × String :=
  let user := s.username
  let application := GetSessionApplication s
  let cleared : SessionState := { username := "", data := none }
  match application with
  | none => (cleared, user, "")
  | some app =>
    if app.Name = "app-built-in" ∨ app.HomepageUrl = "" then (cleared, user, "")
    else (cleared, user, app.HomepageUrl)

/-! ### GetUserinfo -/

/-- A JSON response as assembled by `ResponseError` (modelled from the spec's
response contract §6: status plus message). -/
structure RespJson where
  Status : String
  Msg : String
deriving Repr, DecidableEq

/-- One payload written by `ServeJSON`: either a `Response` struct or the
(possibly nil) userinfo claim set, kept opaque as a string. -/
inductive Served where
  | response (r : RespJson)
  | userinfo (u : Option String)
deriving Repr, DecidableEq

/-- Environment of `GetUserinfo`: the session username (empty when not signed
in), the session's OIDC scope/audience, the request host, and the claim
assembly collaborator `object.GetUserInfo`, returning a Go `(resp, err)`
pair. -/
structure UserinfoEnv where
  sessionUsername : String
  oidcScope : String
  oidcAud : String
  host : String
  getUserInfo : String → String → String → String → Option String × Option String

/-- The `GetUserinfo` entry point (source lines 278–291), as the ordered list
of payloads it serves. `RequireSignedIn` is modelled from the spec (§4.4
`NotSignedIn`). After `ResponseError` the Go code is missing a `return`, so on
a collaborator error the handler also assigns and serves the collaborator's
`resp` value. -/
def GetUserinfo (env : UserinfoEnv) : List Served :=
  if env.sessionUsername = "" then
    [Served.response { Status := "error", Msg := "please sign in first" }]
  else
    let ri := env.getUserInfo env.sessionUsername env.oidcScope env.oidcAud env.host
    match ri.2 with
    | some e => [Served.response { Status := "error", Msg := e }, Served.userinfo ri.1]
    | none => [Served.userinfo ri.1]

/-! ### GetHumanCheck -/

/-- Modelled from the spec: the configured default challenge provider; its
descriptor type is the Go `Type` field, spelled `ProviderType`. -/
structure Provider where
  ProviderType : String
deriving Repr, DecidableEq

/-- The challenge descriptor (`HumanCheck` in the source); the Go field
`Type` is spelled `HCType`, and the captcha image payload is kept opaque. -/
structure HumanCheck where
  HCType : String
  AppKey : String
  Scene : String
  CaptchaId : String
  CaptchaImage : Option String
deriving Repr, DecidableEq

/-- Environment of `GetHumanCheck`: the configured default challenge provider
and the external captcha generator's outputs. -/
structure HumanCheckEnv where
  defaultHumanCheckProvider : Option Provider
  captchaId : String
  captchaImage : String

/-- The `GetHumanCheck` entry point (source lines 297–309): starts from the
default descriptor of type `"none"`, and only when no default provider is
configured replaces it by a generated captcha descriptor. -/
def GetHumanCheck (env : HumanCheckEnv) : HumanCheck :=
  match env.defaultHumanCheckProvider with
  | none =>
    { HCType := "captcha", AppKey := "", Scene := "",
      CaptchaId := env.captchaId, CaptchaImage := some env.captchaImage }
  | some _ =>
    { HCType := "none", AppKey := "", Scene := "", CaptchaId := "", CaptchaImage := none }

/-! ### Verification ledger -/

/-- Modelled from the spec: `object.DisableVerificationCode` removes the
outstanding code for a target from the ledger of `(target, code)` records;
invalidating the empty target is a no-op and never errors (§4.3). -/
def DisableVerificationCode (ledger : List (String × String)) (target : String) :
    List (String × String) :=
  if target = "" then ledger else ledger.filter (fun e => e.1 ≠ target)

/-- The ledger after the invalidation calls a signup performed, in order. -/
def applyInvalidations (ledger : List (String × String)) (targets : List String) :
    List (String × String) :=
  targets.foldl DisableVerificationCode ledger

/-! ### Concrete instances used by witnesses and counterexamples -/

/-- A well-formed signup form for the application `myapp` in `org1`. -/
def baseForm : RequestForm :=
  { Organization := "org1", Username := "bob", Password := "pw", Name := "Bobby",
    FirstName := "", LastName := "", Email := "", Phone := "", Affiliation := "",
    IdCard := "", Region := "", Application := "myapp", EmailCode := "",
    PhoneCode := "", PhonePrefix := "" }

/-- An application that allows signup, shows the username field, and has no
ID or display-name rule configured. -/
def app0 : Application :=
  { Name := "myapp", Organization := "org1", EnableSignUp := true, HomepageUrl := "",
    SignupItems := [{ Name := "Username", Visible := true, Rule := "" }],
    HasPromptPage := false }

/-- An organization with no tag groups. -/
def org0 : Organization := { DefaultAvatar := "av", Tags := [] }

/-- An environment in which a signup for `baseForm` succeeds. -/
def envOk : Env :=
  { sessionUsername := "",
    getApplication := fun n => if n = "admin/myapp" then some app0 else none,
    getOrganization := fun n => if n = "admin/org1" then some org0 else none,
    validateFields := fun _ _ => "",
    checkVerificationCode := fun _ _ => "",
    getLastUser := fun _ => none,
    generatedId := "rand1",
    addUserSucceeds := fun _ => true,
    structToJson := fun _ => "snapshot",
    currentTime := "t0", initScore := 0 }

/-- The environment of a caller who is already signed in as `alice`. -/
def envSigned : Env := { envOk with sessionUsername := "alice" }

/-- An environment in which no application resolves. -/
def envNoApp : Env := { envOk with getApplication := fun _ => none }

/-- The application with the `Incremental` ID rule configured. -/
def appInc : Application :=
  { app0 with SignupItems :=
      [{ Name := "Username", Visible := true, Rule := "" },
       { Name := "ID", Visible := true, Rule := "Incremental" }] }

/-- The organization's most recently created user, holding identifier `41`. -/
def lastU : User := mkUser envOk baseForm app0 org0 "41"

/-- An environment with the incremental rule active and `lastU` as the
organization's last user. -/
def envInc : Env :=
  { envOk with
    getApplication := fun n => if n = "admin/myapp" then some appInc else none,
    getLastUser := fun o => if o = "org1" then some lastU else none }

/-- The application with the `"First, last"` display-name rule configured. -/
def appFL : Application :=
  { app0 with SignupItems :=
      [{ Name := "Username", Visible := true, Rule := "" },
       { Name := "Display name", Visible := true, Rule := "First, last" }] }

/-- A form submitting first and last name parts. -/
def form7 : RequestForm := { baseForm with FirstName := "Ada", LastName := "Lovelace" }

/-- An environment resolving `myapp` to `appFL`. -/
def env7 : Env :=
  { envOk with getApplication := fun n => if n = "admin/myapp" then some appFL else none }

/-- A form submitting a non-empty email for an application that does not show
the email field (so the email code is never checked). -/
def form9 : RequestForm := { baseForm with Email := "a@b.c" }

/-- An application with a homepage, for the logout redirect. -/
def app8 : Application :=
  { app0 with Name := "webapp", HomepageUrl := "https://home.example" }

/-- A session signed in as `alice` with `app8` as application context. -/
def s8 : SessionState :=
  { username := "alice",
    data := some { application := some app8, oidcScope := "openid", oidcAud := "aud1" } }

/-- A userinfo environment whose claim-assembly collaborator fails. -/
def uenv4 : UserinfoEnv :=
  { sessionUsername := "alice", oidcScope := "openid", oidcAud := "aud1",
    host := "example.org",
    getUserInfo := fun _ _ _ _ => (none, some "claims assembly failed") }

/-- A human-check environment with a configured default provider of type
`GEETEST`. -/
def hcEnvGeetest : HumanCheckEnv :=
  { defaultHumanCheckProvider := some { ProviderType := "GEETEST" },
    captchaId := "cid", captchaImage := "img" }

/-- A human-check environment with no configured default provider. -/
def hcEnvNone : HumanCheckEnv :=
  { defaultHumanCheckProvider := none, captchaId := "cid", captchaImage := "img" }

/-! ### Properties of the decimal formatter and parser -/

theorem digitCharOf_toNat {n : Nat} (h : n < 10) : (digitCharOf n).toNat = 48 + n := by
  interval_cases n <;> decide

theorem isDigitChar_digitCharOf {n : Nat} (h : n < 10) : isDigitChar (digitCharOf n) = true := by
  interval_cases n <;> decide

theorem natDigitsAux_append (fuel n : Nat) (ds : List Char) :
    natDigitsAux fuel n ds = natDigitsAux fuel n [] ++ ds := by
  induction fuel generalizing n ds with
  | zero => rfl
  | succ f ih =>
    by_cases h : n < 10
    · simp [natDigitsAux, h]
    · simp only [natDigitsAux, if_neg h]
      rw [ih, ih (n / 10) [digitCharOf (n % 10)], List.append_assoc]
      rfl

theorem parseNatDigits_natDigits (n : Nat) : parseNatDigits (natDigits n) = n := by
  suffices h : ∀ fuel, ∀ m < fuel, parseNatDigits (natDigitsAux fuel m []) = m from
    h (n + 1) n (by omega)
  intro fuel
  induction fuel with
  | zero => omega
  | succ f ih =>
    intro m hm
    by_cases h : m < 10
    · have hd := digitCharOf_toNat h
      simp [natDigitsAux, h, parseNatDigits, hd]
    · have hrec : m / 10 < f := by omega
      have hd := digitCharOf_toNat (show m % 10 < 10 by omega)
      simp only [natDigitsAux, if_neg h]
      rw [natDigitsAux_append]
      simp only [parseNatDigits, List.foldl_append, List.foldl] at ih ⊢
      rw [ih (m / 10) hrec, hd]
      omega

theorem natDigits_all_digits (n : Nat) :
    ∀ c ∈ natDigits n, isDigitChar c = true := by
  suffices h : ∀ fuel m (ds : List Char), (∀ c ∈ ds, isDigitChar c = true) →
      ∀ c ∈ natDigitsAux fuel m ds, isDigitChar c = true by
    exact h (n + 1) n [] (by simp)
  intro fuel
  induction fuel with
  | zero => intro m ds hds; simpa [natDigitsAux] using hds
  | succ f ih =>
    intro m ds hds c hc
    by_cases h : m < 10
    · simp only [natDigitsAux, if_pos h, List.mem_cons] at hc
      rcases hc with rfl | hmem
      · exact isDigitChar_digitCharOf h
      · exact hds c hmem
    · simp only [natDigitsAux, if_neg h] at hc
      refine ih (m / 10) _ (fun c' hc' => ?_) c hc
      rcases List.mem_cons.mp hc' with rfl | hmem
      · exact isDigitChar_digitCharOf (by omega)
      · exact hds c' hmem

theorem natDigits_ne_nil (n : Nat) : natDigits n ≠ [] := by
  unfold natDigits natDigitsAux
  by_cases h : n < 10
  · simp [h]
  · rw [if_neg h, natDigitsAux_append]
    simp

theorem ParseInt_Itoa (i : Int) : ParseInt (Itoa i) = some i := by
  by_cases hneg : i < 0
  · have hlist : (Itoa i).toList = '-' :: natDigits i.natAbs := by
      simp [Itoa, hneg, String.toList]
    have hcond : natDigits i.natAbs ≠ [] ∧ (natDigits i.natAbs).all isDigitChar = true := by
      refine ⟨natDigits_ne_nil _, ?_⟩
      rw [List.all_eq_true]
      exact natDigits_all_digits _
    simp only [ParseInt, hlist]
    rw [if_pos trivial, if_pos hcond, parseNatDigits_natDigits]
    congr 1
    omega
  · have hlist : (Itoa i).toList = natDigits i.toNat := by
      simp [Itoa, hneg, String.toList]
    have hne := natDigits_ne_nil i.toNat
    have hall := natDigits_all_digits i.toNat
    cases hd : natDigits i.toNat with
    | nil => exact absurd hd hne
    | cons c cs =>
      rw [hd] at hall
      have hcdigit : isDigitChar c = true := hall c (by simp)
      have hcne : ¬ c = '-' := by
        intro hcm
        subst hcm
        simp [isDigitChar] at hcdigit
      have hallb : (c :: cs).all isDigitChar = true := by
        rw [List.all_eq_true]
        exact hall
      simp only [ParseInt, hlist, hd]
      rw [if_neg hcne, if_pos hallb, ← hd, parseNatDigits_natDigits]
      congr 1
      omega

/-! ### Helper lemmas about the signup pipeline -/

theorem string_length_ne_zero_iff (s : String) : s.length ≠ 0 ↔ s ≠ "" := by
  cases s with
  | mk data =>
    cases data with
    | nil => simp
    | cons c cs =>
      constructor
      · intro _ h
        have hdata := congrArg String.data h
        simp at hdata
      · intro _ h
        simp [String.length] at h

theorem mkUser_fields (env : Env) (form : RequestForm) (app : Application)
    (org : Organization) (id : String) :
    (mkUser env form app org id).Id = id ∧
    (mkUser env form app org id).Owner = form.Organization ∧
    (mkUser env form app org id).Name =
      (if ¬ app.IsSignupItemVisible "Username" then id else form.Username) ∧
    (mkUser env form app org id).UserType = "normal-user" ∧
    (mkUser env form app org id).IsAdmin = false ∧
    (mkUser env form app org id).IsGlobalAdmin = false ∧
    (mkUser env form app org id).IsForbidden = false ∧
    (mkUser env form app org id).IsDeleted = false ∧
    (mkUser env form app org id).Karma = 0 ∧
    (mkUser env form app org id).Address = [] ∧
    (mkUser env form app org id).Properties = [] := by
  simp only [mkUser]
  split
  · split
    · simp
    · split <;> simp
  · split
    · simp
    · split <;> simp

theorem mkUser_display_pos (env : Env) (form : RequestForm) (app : Application)
    (org : Organization) (id : String)
    (h : app.GetSignupItemRule "Display name" = "First, last" ∧
      (form.FirstName ≠ "" ∨ form.LastName ≠ "")) :
    (mkUser env form app org id).DisplayName = form.FirstName ++ " " ++ form.LastName ∧
    (mkUser env form app org id).FirstName = form.FirstName ∧
    (mkUser env form app org id).LastName = form.LastName := by
  simp only [mkUser]
  rw [if_pos h]
  split
  · simp
  · split <;> simp

theorem mkUser_display_neg (env : Env) (form : RequestForm) (app : Application)
    (org : Organization) (id : String)
    (h : ¬ (app.GetSignupItemRule "Display name" = "First, last" ∧
      (form.FirstName ≠ "" ∨ form.LastName ≠ ""))) :
    (mkUser env form app org id).DisplayName = form.Name := by
  simp only [mkUser]
  rw [if_neg h]
  split
  · simp
  · split <;> simp

theorem signupCreate_inversion (env : Env) (form : RequestForm) (app : Application)
    (orgo : Option Organization) (u : User)
    (hu : (signupCreate env form app orgo).2.createdUser = some u) :
    ∃ org id, orgo = some org ∧ allocId env form app = some id ∧
      u = mkUser env form app org id ∧
      signupCreate env form app orgo =
        (SignupResult.ok (u.Owner ++ "/" ++ u.Name),
         { createdUser := some u, replicatedUser := some u,
           sessionSet := if app.HasPromptPage then some (User.GetId u) else none,
           invalidatedTargets := [form.Email, checkPhoneOf form app],
           auditEmitted := true }) := by
  cases hid : allocId env form app with
  | none => simp [signupCreate, hid, noEffects] at hu
  | some id =>
    cases orgo with
    | none => simp [signupCreate, hid, noEffects] at hu
    | some org =>
      by_cases hadd : env.addUserSucceeds (mkUser env form app org id) = false
      · simp [signupCreate, hid, hadd, noEffects] at hu
      · have huser : u = mkUser env form app org id := by
          simp [signupCreate, hid, hadd] at hu
          exact hu.symm
        refine ⟨org, id, rfl, rfl, huser, ?_⟩
        subst huser
        simp [signupCreate, hid, hadd]

theorem signupPhone_inversion (env : Env) (form : RequestForm) (app : Application)
    (orgo : Option Organization) (u : User)
    (hu : (signupPhone env form app orgo).2.createdUser = some u) :
    ∃ org id, orgo = some org ∧ allocId env form app = some id ∧
      u = mkUser env form app org id ∧
      signupPhone env form app orgo =
        (SignupResult.ok (u.Owner ++ "/" ++ u.Name),
         { createdUser := some u, replicatedUser := some u,
           sessionSet := if app.HasPromptPage then some (User.GetId u) else none,
           invalidatedTargets := [form.Email, checkPhoneOf form app],
           auditEmitted := true }) := by
  by_cases hc : app.IsSignupItemVisible "Phone" = true ∧ form.Phone ≠ ""
  · by_cases hr : (env.checkVerificationCode (checkPhoneOf form app) form.PhoneCode).length ≠ 0
    · simp [signupPhone, hc, hr, noEffects] at hu
    · have hu' : (signupCreate env form app orgo).2.createdUser = some u := by
        simpa [signupPhone, hc, hr] using hu
      obtain ⟨org, id, ho, hid, huser, heq⟩ := signupCreate_inversion env form app orgo u hu'
      exact ⟨org, id, ho, hid, huser, by simpa [signupPhone, hc, hr] using heq⟩
  · have hu' : (signupCreate env form app orgo).2.createdUser = some u := by
      simpa [signupPhone, hc] using hu
    obtain ⟨org, id, ho, hid, huser, heq⟩ := signupCreate_inversion env form app orgo u hu'
    exact ⟨org, id, ho, hid, huser, by simpa [signupPhone, hc] using heq⟩

theorem signup_created_inversion (env : Env) (form : RequestForm) (u : User)
    (hu : (Signup env form).2.createdUser = some u) :
    ∃ app org id,
      env.getApplication ("admin/" ++ form.Application) = some app ∧
      env.getOrganization ("admin/" ++ form.Organization) = some org ∧
      allocId env form app = some id ∧
      u = mkUser env form app org id ∧
      Signup env form =
        (SignupResult.ok (u.Owner ++ "/" ++ u.Name),
         { createdUser := some u, replicatedUser := some u,
           sessionSet := if app.HasPromptPage then some (User.GetId u) else none,
           invalidatedTargets := [form.Email, checkPhoneOf form app],
           auditEmitted := true }) := by
  by_cases hs : env.sessionUsername ≠ ""
  · simp [Signup, hs, noEffects] at hu
  · cases happ : env.getApplication ("admin/" ++ form.Application) with
    | none => simp [Signup, hs, happ, noEffects] at hu
    | some app =>
      by_cases hen : app.EnableSignUp = false
      · simp [Signup, hs, happ, hen, noEffects] at hu
      · by_cases hmsg :
          CheckUserSignup env app (env.getOrganization ("admin/" ++ form.Organization)) form ≠ ""
        · simp [Signup, hs, happ, hen, hmsg, noEffects] at hu
        · by_cases hem : app.IsSignupItemVisible "Email" = true ∧ form.Email ≠ ""
          · by_cases hr : (env.checkVerificationCode form.Email form.EmailCode).length ≠ 0
            · simp [Signup, hs, happ, hen, hmsg, hem, hr, noEffects] at hu
            · have hu' :
                  (signupPhone env form app
                    (env.getOrganization ("admin/" ++ form.Organization))).2.createdUser =
                    some u := by
                simpa [Signup, hs, happ, hen, hmsg, hem, hr] using hu
              obtain ⟨org, id, ho, hid, huser, heq⟩ :=
                signupPhone_inversion env form app
                  (env.getOrganization ("admin/" ++ form.Organization)) u hu'
              exact ⟨app, org, id, rfl, ho, hid, huser,
                by simp [Signup, hs, happ, hen, hmsg, hem, hr, heq]⟩
          · have hu' :
                (signupPhone env form app
                  (env.getOrganization ("admin/" ++ form.Organization))).2.createdUser =
                  some u := by
              simpa [Signup, hs, happ, hen, hmsg, hem] using hu
            obtain ⟨org, id, ho, hid, huser, heq⟩ :=
              signupPhone_inversion env form app
                (env.getOrganization ("admin/" ++ form.Organization)) u hu'
            exact ⟨app, org, id, rfl, ho, hid, huser,
              by simp [Signup, hs, happ, hen, hmsg, hem, heq]⟩

/-! ### Claim theorems -/

/-- C1: every signup request that fails one of the pre-persistence checks —
caller already signed in, signup disabled by the application, business-rule
validation failure, email or phone verification-code mismatch — yields the
corresponding error response, creates no user record, and has no other
observable side effect (no session change, no code invalidation, no
replication, no audit record). -/
theorem signup_precheck_failures (env : Env) (form : RequestForm) :
    (env.sessionUsername ≠ "" →
      Signup env form =
        (SignupResult.err "Please sign out first before signing up"
          (some env.sessionUsername), noEffects)) ∧
    (∀ app, env.sessionUsername = "" →
      env.getApplication ("admin/" ++ form.Application) = some app →
      app.EnableSignUp = false →
      Signup env form =
        (SignupResult.err "The application does not allow to sign up new account" none,
         noEffects)) ∧
    (∀ app, env.sessionUsername = "" →
      env.getApplication ("admin/" ++ form.Application) = some app →
      app.EnableSignUp = true →
      CheckUserSignup env app (env.getOrganization ("admin/" ++ form.Organization)) form ≠ "" →
      Signup env form =
        (SignupResult.err
          (CheckUserSignup env app (env.getOrganization ("admin/" ++ form.Organization)) form)
          none, noEffects)) ∧
    (∀ app, env.sessionUsername = "" →
      env.getApplication ("admin/" ++ form.Application) = some app →
      app.EnableSignUp = true →
      CheckUserSignup env app (env.getOrganization ("admin/" ++ form.Organization)) form = "" →
      app.IsSignupItemVisible "Email" = true → form.Email ≠ "" →
      env.checkVerificationCode form.Email form.EmailCode ≠ "" →
      Signup env form =
        (SignupResult.err ("Email: " ++ env.checkVerificationCode form.Email form.EmailCode)
          none, noEffects)) ∧
    (∀ app, env.sessionUsername = "" →
      env.getApplication ("admin/" ++ form.Application) = some app →
      app.EnableSignUp = true →
      CheckUserSignup env app (env.getOrganization ("admin/" ++ form.Organization)) form = "" →
      (app.IsSignupItemVisible "Email" = true ∧ form.Email ≠ "" →
        env.checkVerificationCode form.Email form.EmailCode = "") →
      app.IsSignupItemVisible "Phone" = true → form.Phone ≠ "" →
      env.checkVerificationCode (checkPhoneOf form app) form.PhoneCode ≠ "" →
      Signup env form =
        (SignupResult.err
          ("Phone: " ++ env.checkVerificationCode (checkPhoneOf form app) form.PhoneCode)
          none, noEffects)) := by
  refine ⟨?_, ?_, ?_, ?_, ?_⟩
  · intro h
    simp [Signup, h]
  · intro app h1 h2 h3
    simp [Signup, h1, h2, h3]
  · intro app h1 h2 h3 h4
    simp [Signup, h1, h2, h3, h4]
  · intro app h1 h2 h3 h4 h5 h6 h7
    simp [Signup, h1, h2, h3, h4, h5, h6, h7, string_length_ne_zero_iff]
  · intro app h1 h2 h3 h4 hEm h5 h6 h7
    by_cases hem : app.IsSignupItemVisible "Email" = true ∧ form.Email ≠ ""
    · have hr0 := hEm hem
      simp [Signup, signupPhone, h1, h2, h3, h4, hem, hr0, h5, h6, h7,
        string_length_ne_zero_iff]
    · simp [Signup, signupPhone, h1, h2, h3, h4, hem, h5, h6, h7,
        string_length_ne_zero_iff]

/-- C1 witness: with an active session for `alice`, signing up fails with the
sign-out-first error and no side effects occur. -/
theorem signup_precheck_failures_witness :
    Signup envSigned baseForm =
      (SignupResult.err "Please sign out first before signing up" (some "alice"), noEffects) :=
  (signup_precheck_failures envSigned baseForm).1 (by decide)

/-- C2 (code behaviour at the failing input): a signup request naming an
application that does not resolve makes `Signup` dereference the nil
application and panic — no application-not-found error response is produced —
and no user record is created. -/
theorem signup_absent_application_panics :
    envNoApp.getApplication ("admin/" ++ RequestForm.Application baseForm) = none ∧
    Signup envNoApp baseForm = (SignupResult.nilPanic, noEffects) := ⟨rfl, rfl⟩

/-- C3: under the `Incremental` ID rule the created user's identifier is the
decimal rendering of the organization's last user's parsed identifier plus
one (absence read as `-1`), its integer value is exactly one more than the
last one, hence sequential successful signups yield strictly increasing
integer identifiers. -/
theorem signup_incremental_id (env : Env) (form : RequestForm) (app : Application) (u : User)
    (happ : env.getApplication ("admin/" ++ form.Application) = some app)
    (hrule : app.GetSignupItemRule "ID" = "Incremental")
    (hu : (Signup env form).2.createdUser = some u) :
    (env.getLastUser form.Organization = none → u.Id = Itoa (-1 + 1)) ∧
    (∀ lastUser k, env.getLastUser form.Organization = some lastUser →
      ParseInt lastUser.Id = some k →
      u.Id = Itoa (k + 1) ∧ ParseInt u.Id = some (k + 1) ∧ k < k + 1) := by
  obtain ⟨app', org, id, happ', horg, hid, huser, hsig⟩ := signup_created_inversion env form u hu
  rw [happ] at happ'
  injection happ' with happeq
  subst happeq
  have hId : u.Id = id := by
    rw [huser]
    exact (mkUser_fields env form app org id).1
  simp only [allocId, hrule, if_pos] at hid
  constructor
  · intro hnone
    rw [hnone] at hid
    simp only [Option.some.injEq] at hid
    rw [hId, ← hid]
  · intro lastUser k hl hk
    rw [hl] at hid
    simp [hk] at hid
    refine ⟨?_, ?_, by omega⟩
    · rw [hId, ← hid]
    · rw [hId, ← hid, ParseInt_Itoa]

/-- C3 witness: with last identifier `41`, the created user's identifier is
the decimal rendering of `42`, parses back to `42`, and exceeds `41`. -/
theorem signup_incremental_id_witness :
    (mkUser envInc baseForm appInc org0 (Itoa (41 + 1))).Id = Itoa (41 + 1) ∧
    ParseInt (mkUser envInc baseForm appInc org0 (Itoa (41 + 1))).Id = some (41 + 1) ∧
    (41 : Int) < 41 + 1 :=
  (signup_incremental_id envInc baseForm appInc
      (mkUser envInc baseForm appInc org0 (Itoa (41 + 1))) rfl rfl rfl).2 lastU 41 rfl rfl

/-- C4 (code behaviour at the failing input): with an active session and a
failing claim-assembly collaborator, `GetUserinfo` serves the status-error
response carrying the collaborator's message verbatim and then — the code is
missing a `return` — additionally serves the nil userinfo payload. -/
theorem getUserinfo_error_double_serve :
    GetUserinfo uenv4 =
      [Served.response { Status := "error", Msg := "claims assembly failed" },
       Served.userinfo none] ∧
    (GetUserinfo uenv4).length = 2 := ⟨rfl, rfl⟩

/-- C5 counterexample: with a configured default provider of descriptor type
`"GEETEST"`, `GetHumanCheck` returns a descriptor of type `"none"`, not the
provider's descriptor type. -/
theorem getHumanCheck_provider_type_ignored :
    hcEnvGeetest.defaultHumanCheckProvider = some { ProviderType := "GEETEST" } ∧
    (GetHumanCheck hcEnvGeetest).HCType = "none" ∧
    (GetHumanCheck hcEnvGeetest).HCType ≠ "GEETEST" := ⟨rfl, rfl, by decide⟩

/-- C5 (amended): whenever a default challenge provider is configured,
`GetHumanCheck` returns the default descriptor of type `"none"` (the
provider's own descriptor type is ignored); when none is configured it
returns a descriptor of type `"captcha"` embedding the freshly generated
challenge identifier and image payload. -/
theorem getHumanCheck_descriptor (env : HumanCheckEnv) :
    (∀ p, env.defaultHumanCheckProvider = some p →
      GetHumanCheck env =
        { HCType := "none", AppKey := "", Scene := "", CaptchaId := "",
          CaptchaImage := none }) ∧
    (env.defaultHumanCheckProvider = none →
      GetHumanCheck env =
        { HCType := "captcha", AppKey := "", Scene := "",
          CaptchaId := env.captchaId, CaptchaImage := some env.captchaImage }) := by
  constructor
  · intro p hp
    simp [GetHumanCheck, hp]
  · intro hp
    simp [GetHumanCheck, hp]

/-- C5 witness: with no provider configured, the captcha descriptor embeds the
generated challenge identifier and image. -/
theorem getHumanCheck_descriptor_witness :
    GetHumanCheck hcEnvNone =
      { HCType := "captcha", AppKey := "", Scene := "",
        CaptchaId := "cid", CaptchaImage := some "img" } :=
  (getHumanCheck_descriptor hcEnvNone).2 rfl

/-- C6: in a successful signup, the created record's name is the allocated
identifier when the username field is not among the visible signup fields,
and the submitted username when it is. -/
theorem signup_username_anonymization (env : Env) (form : RequestForm) (app : Application)
    (u : User)
    (happ : env.getApplication ("admin/" ++ form.Application) = some app)
    (hu : (Signup env form).2.createdUser = some u) :
    (app.IsSignupItemVisible "Username" = false → u.Name = u.Id) ∧
    (app.IsSignupItemVisible "Username" = true → u.Name = form.Username) := by
  obtain ⟨app', org, id, happ', horg, hid, huser, hsig⟩ := signup_created_inversion env form u hu
  rw [happ] at happ'
  injection happ' with happeq
  subst happeq
  obtain ⟨hId, hOwner, hName, hrest⟩ := mkUser_fields env form app org id
  constructor
  · intro hvis
    rw [huser, hName, hId, if_pos (by simp [hvis])]
  · intro hvis
    rw [huser, hName, if_neg (by simp [hvis])]

/-- C6 witness: the username field is visible for `app0`, so the created
record's name is the submitted username. -/
theorem signup_username_anonymization_witness :
    (mkUser envOk baseForm app0 org0 "rand1").Name = RequestForm.Username baseForm :=
  (signup_username_anonymization envOk baseForm app0
      (mkUser envOk baseForm app0 org0 "rand1") rfl rfl).2 rfl

/-- C7: in a successful signup under the `"First, last"` display-name rule
with a non-empty name part, the created record's display name is the first
and last names joined by a single space and both parts are retained; in every
other case the submitted display name is kept unchanged. -/
theorem signup_display_name (env : Env) (form : RequestForm) (app : Application) (u : User)
    (happ : env.getApplication ("admin/" ++ form.Application) = some app)
    (hu : (Signup env form).2.createdUser = some u) :
    (app.GetSignupItemRule "Display name" = "First, last" →
      (form.FirstName ≠ "" ∨ form.LastName ≠ "") →
      u.DisplayName = form.FirstName ++ " " ++ form.LastName ∧
      u.FirstName = form.FirstName ∧ u.LastName = form.LastName) ∧
    (¬ (app.GetSignupItemRule "Display name" = "First, last" ∧
        (form.FirstName ≠ "" ∨ form.LastName ≠ "")) →
      u.DisplayName = form.Name) := by
  obtain ⟨app', org, id, happ', horg, hid, huser, hsig⟩ := signup_created_inversion env form u hu
  rw [happ] at happ'
  injection happ' with happeq
  subst happeq
  subst huser
  constructor
  · intro h1 h2
    exact mkUser_display_pos env form app org id ⟨h1, h2⟩
  · intro h
    exact mkUser_display_neg env form app org id h

/-- C7 witness: rule `"First, last"` with first `Ada` and last `Lovelace`
produces display name `Ada Lovelace` with both parts retained. -/
theorem signup_display_name_witness :
    (mkUser env7 form7 appFL org0 "rand1").DisplayName = "Ada" ++ " " ++ "Lovelace" ∧
    (mkUser env7 form7 appFL org0 "rand1").FirstName = "Ada" ∧
    (mkUser env7 form7 appFL org0 "rand1").LastName = "Lovelace" :=
  (signup_display_name env7 form7 appFL
      (mkUser env7 form7 appFL org0 "rand1") rfl rfl).1 rfl (by decide)

/-- C8: Logout clears the session username and all session data, returns the
previously active username, and the redirect target is empty exactly when
there is no application context, the context is the built-in application, or
its homepage is unconfigured; otherwise it is the application's homepage
URL. -/
theorem logout_contract (s : SessionState) :
    (Logout s).1.username = "" ∧
    (Logout s).1.data = none ∧
    (Logout s).2.1 = s.username ∧
    ((Logout s).2.2 = "" ↔
      ∀ app, GetSessionApplication s = some app →
        app.Name = "app-built-in" ∨ app.HomepageUrl = "") ∧
    (∀ app, GetSessionApplication s = some app → app.Name ≠ "app-built-in" →
      app.HomepageUrl ≠ "" → (Logout s).2.2 = app.HomepageUrl) := by
  cases hap : GetSessionApplication s with
  | none => simp [Logout, hap]
  | some app =>
    by_cases hb : app.Name = "app-built-in" ∨ app.HomepageUrl = ""
    · rcases hb with hb | hb <;> refine ⟨?_, ?_, ?_, ?_, ?_⟩ <;> simp [Logout, hap, hb]
    · have hname : app.Name ≠ "app-built-in" := fun h => hb (Or.inl h)
      have hurl : app.HomepageUrl ≠ "" := fun h => hb (Or.inr h)
      refine ⟨?_, ?_, ?_, ?_, ?_⟩ <;> simp [Logout, hap, hb, hname, hurl]

/-- C8 witness: logging out of a session whose application has a homepage
redirects to that homepage. -/
theorem logout_contract_witness :
    (Logout s8).2.2 = "https://home.example" :=
  (logout_contract s8).2.2.2.2 app8 rfl (by decide) (by decide)

/-- C9 counterexample: `app0` does not show the email field, so the submitted
email's verification code is never checked, yet after the successful signup
the email target is invalidated — the outstanding ledger code for `a@b.c` is
removed. -/
theorem signup_invalidates_unchecked_email :
    Application.IsSignupItemVisible app0 "Email" = false ∧
    RequestForm.Email form9 = "a@b.c" ∧
    (Signup envOk form9).2.invalidatedTargets = ["a@b.c", ""] ∧
    applyInvalidations [("a@b.c", "123456")] (Signup envOk form9).2.invalidatedTargets =
      [] := ⟨rfl, rfl, rfl, rfl⟩

/-- C9 (amended): after the persistence step of a successful signup exactly
two invalidation calls happen — the submitted email target (whether or not
the email code was checked) and the phone target, which is
`"+<prefix><phone>"` exactly when the phone code was checked and `""`
otherwise; invalidating an empty target is a no-op and never errors. -/
theorem signup_invalidation (env : Env) (form : RequestForm) (app : Application) (u : User)
    (happ : env.getApplication ("admin/" ++ form.Application) = some app)
    (hu : (Signup env form).2.createdUser = some u) :
    (Signup env form).2.invalidatedTargets = [form.Email, checkPhoneOf form app] ∧
    (app.IsSignupItemVisible "Phone" = true ∧ form.Phone ≠ "" →
      checkPhoneOf form app = "+" ++ RequestForm.PhonePrefix form ++ form.Phone) ∧
    (¬ (app.IsSignupItemVisible "Phone" = true ∧ form.Phone ≠ "") →
      checkPhoneOf form app = "") ∧
    (∀ ledger, DisableVerificationCode ledger "" = ledger) := by
  obtain ⟨app', org, id, happ', horg, hid, huser, hsig⟩ := signup_created_inversion env form u hu
  rw [happ] at happ'
  injection happ' with happeq
  subst happeq
  refine ⟨?_, ?_, ?_, ?_⟩
  · rw [hsig]
  · intro h
    simp [checkPhoneOf, h]
  · intro h
    simp [checkPhoneOf, h]
  · intro ledger
    simp [DisableVerificationCode]

/-- C9 witness: the successful signup of `form9` invalidates exactly the
submitted email target and the (empty) phone target. -/
theorem signup_invalidation_witness :
    (Signup envOk form9).2.invalidatedTargets =
      [RequestForm.Email form9, checkPhoneOf form9 app0] :=
  (signup_invalidation envOk form9 app0 (mkUser envOk form9 app0 org0 "rand1") rfl rfl).1

/-- C10: every user record a successful signup persists is a plain
`normal-user`: no admin flags, not forbidden, not deleted, karma `0`, an
empty address list and an empty properties map. -/
theorem signup_created_user_invariants (env : Env) (form : RequestForm) (u : User)
    (hu : (Signup env form).2.createdUser = some u) :
    u.UserType = "normal-user" ∧ u.IsAdmin = false ∧ u.IsGlobalAdmin = false ∧
    u.IsForbidden = false ∧ u.IsDeleted = false ∧ u.Karma = 0 ∧
    u.Address = [] ∧ u.Properties = [] := by
  obtain ⟨app, org, id, happ, horg, hid, huser, hsig⟩ := signup_created_inversion env form u hu
  subst huser
  obtain ⟨h1, h2, h3, h4, h5, h6, h7, h8, h9, h10, h11⟩ := mkUser_fields env form app org id
  exact ⟨h4, h5, h6, h7, h8, h9, h10, h11⟩

/-- C10 witness: the record created for `baseForm` in `envOk` satisfies all
the invariants. -/
theorem signup_created_user_invariants_witness :
    (mkUser envOk baseForm app0 org0 "rand1").UserType = "normal-user" ∧
    (mkUser envOk baseForm app0 org0 "rand1").IsAdmin = false ∧
    (mkUser envOk baseForm app0 org0 "rand1").IsGlobalAdmin = false ∧
    (mkUser envOk baseForm app0 org0 "rand1").IsForbidden = false ∧
    (mkUser envOk baseForm app0 org0 "rand1").IsDeleted = false ∧
    (mkUser envOk baseForm app0 org0 "rand1").Karma = 0 ∧
    (mkUser envOk baseForm app0 org0 "rand1").Address = [] ∧
    (mkUser envOk baseForm app0 org0 "rand1").Properties = [] :=
  signup_created_user_invariants envOk baseForm (mkUser envOk baseForm app0 org0 "rand1") rfl

end Casdoor
